import Mathlib

/-!
Verification development for `rebasebot/github.py`.

The file embeds, as executable Lean definitions, the two components of the
source module:

* the branch-locator parser `parse_github_branch` together with the fragment
  of `urllib.parse.urlparse` that it consumes (scheme and netloc extraction),
  and the anchored regular expression
  `^(?P<organization>[^/]+)/(?P<name>[^:]+):(?P<branch>.*)$`
  under Python `re.match` semantics;
* the `GithubAppProvider` class: its constructor validation, its token
  accessors, the installation-token exchange `_github_login_app`, and the
  `cached_property`-backed accessors `github_app` / `github_cloner_app`,
  modelled as explicit state passing with a counter of token-mint calls.

Python exceptions are modelled as `Except String`; `None` as `Option`;
`bytes` as `List Nat`; the external PyGithub API (`GithubIntegration`) as an
explicit environment of pure functions.
-/

namespace Rebasebot

/-- Dataclass `GitHubBranch`: full url, namespace, repository name, branch. -/
structure GitHubBranch where
  url : String
  ns : String
  name : String
  branch : String
deriving DecidableEq, Repr

/-! ### Model of the used fragment of `urllib.parse.urlparse`

`parse_github_branch` only reads `url.scheme` and `url.netloc` from the
parse result.  We therefore model exactly the scheme and netloc extraction
of CPython `urlsplit`:

* the scheme is the text before the first `':'` provided that text is
  nonempty, starts with an (ASCII) letter and consists of scheme characters
  (letters, digits, `+`, `-`, `.`); it is lowercased;
* a netloc is recognised only after a literal `"//"` and extends to the next
  `'/'`, `'?'` or `'#'`; netlocs with mismatched square brackets raise
  `ValueError("Invalid IPv6 URL")`.

The WHATWG control-character stripping and the bracketed-host validation of
the newest CPython releases are not modelled; no input analysed here
contains control characters or a bracketed host. -/

/-- Characters CPython allows in a URL scheme (`scheme_chars`). -/
def isSchemeChar (c : Char) : Bool :=
  c.isAlphanum || c == '+' || c == '-' || c == '.'

/-- The two fields of the urlparse result that `parse_github_branch` uses. -/
structure UrlParts where
  scheme : List Char
  netloc : List Char
deriving DecidableEq, Repr

/-- Scheme extraction of `urlsplit`: `i = url.find(':')`; when `i > 0`,
`url[0]` is an ASCII letter and every character of `url[:i]` is a scheme
character, the scheme is `url[:i].lower()` and the remainder `url[i+1:]`;
otherwise the scheme is empty and the url is unchanged. -/
def schemeSplit (l : List Char) : List Char × List Char :=
  match l.dropWhile (fun c => c != ':') with
  | [] => ([], l)
  | _ :: rest =>
    let pre := l.takeWhile (fun c => c != ':')
    if pre ≠ [] ∧ (l.headD ' ').isAlpha ∧ pre.all isSchemeChar then
      (pre.map Char.toLower, rest)
    else ([], l)

/-- Netloc extraction of `urlsplit`: when the (scheme-stripped) url starts
with `"//"`, the netloc runs to the next `'/'`, `'?'` or `'#'`; a netloc
containing `'['` without `']'` (or conversely) raises
`ValueError("Invalid IPv6 URL")`. -/
def netlocOf (l : List Char) : Except String (List Char) :=
  if l.take 2 = ['/', '/'] then
    let nl := (l.drop 2).takeWhile (fun c => !(c == '/' || c == '?' || c == '#'))
    if ('[' ∈ nl ∧ ']' ∉ nl) ∨ (']' ∈ nl ∧ '[' ∉ nl) then
      .error "Invalid IPv6 URL"
    else
      .ok nl
  else
    .ok []

/-- The scheme and netloc of `urllib.parse.urlparse(l)`. -/
def urlparse (l : List Char) : Except String UrlParts :=
  let (sch, rest) := schemeSplit l
  (netlocOf rest).map (fun nl => ⟨sch, nl⟩)

/-- `"https://github.com/"`, the literal removed by
`repository_string.removeprefix("https://github.com/")`. -/
def ghHead : List Char := "https://github.com/".data

/-- `str.removeprefix("https://github.com/")`: drop the prefix when the
string starts with it, otherwise return the string unchanged. -/
def stripGhHead (l : List Char) : List Char :=
  if l.take ghHead.length = ghHead then l.drop ghHead.length else l

/-- The branch group `(?P<branch>.*)$` of the regex under `re.match`
semantics: `.` does not match a newline, and `$` matches at the end of the
string or just before a newline that is the last character.  Hence the
branch is the remainder when it contains no newline, the remainder minus a
single trailing newline when that is its only newline, and there is no
match otherwise. -/
def branchTail (l : List Char) : Option (List Char) :=
  let b := l.takeWhile (fun c => c != '\n')
  if l.drop b.length = [] then some b
  else if l.drop b.length = ['\n'] then some b
  else none

/-- `re.match` of `^(?P<organization>[^/]+)/(?P<name>[^:]+):(?P<branch>.*)$`:
the organization is the nonempty run before the first `'/'`, the name the
nonempty run from there to the first following `':'`, the branch the rest
(via `branchTail`).  Backtracking cannot produce any other split because the
negated character classes cannot cross their delimiters. -/
def githubRegexMatch (l : List Char) : Option (List Char × List Char × List Char) :=
  let org := l.takeWhile (fun c => c != '/')
  if org = [] ∨ l.drop org.length = [] then none
  else
    let rest1 := l.drop (org.length + 1)
    let nm := rest1.takeWhile (fun c => c != ':')
    if nm = [] ∨ rest1.drop nm.length = [] then none
    else (branchTail (rest1.drop (nm.length + 1))).map (fun b => (org, nm, b))

/-- `parse_github_branch(repository_string)`: reject inputs that parse as a
URL with a scheme whose host is not `github.com`; strip a literal
`https://github.com/` prefix; match the regex; build the `GitHubBranch`
with url `f"https://github.com/{organization}/{name}"`. -/
def parse_github_branch (repository_string : String) : Except String GitHubBranch :=
  match urlparse repository_string.data with
  | .error e => .error e
  | .ok u =>
    if u.scheme ≠ [] ∧ u.netloc ≠ "github.com".data then
      .error "Only GitHub URLs are supported right now"
    else
      match githubRegexMatch (stripGhHead repository_string.data) with
      | none =>
        .error "GitHub branch value must be in the form <user or organization>/<repo>:<branch>"
      | some (org, nm, br) =>
        .ok ⟨("https://github.com/".data ++ org ++ '/' :: nm).asString,
             org.asString, nm.asString, br.asString⟩

example : parse_github_branch "openshift/api:main" =
    .ok ⟨"https://github.com/openshift/api", "openshift", "api", "main"⟩ := rfl

example : parse_github_branch "https://github.com/openshift/api:main" =
    .ok ⟨"https://github.com/openshift/api", "openshift", "api", "main"⟩ := rfl

example : parse_github_branch "gitlab.com/openshift/api:main" =
    .ok ⟨"https://github.com/gitlab.com/openshift/api", "gitlab.com", "openshift/api", "main"⟩ := rfl

example : parse_github_branch "https://gitlab.com/openshift/api:main" =
    .error "Only GitHub URLs are supported right now" := rfl

example : parse_github_branch "not-a-valid-string" =
    .error "GitHub branch value must be in the form <user or organization>/<repo>:<branch>" := rfl

example : parse_github_branch "a/b:" = .ok ⟨"https://github.com/a/b", "a", "b", ""⟩ := rfl

example : parse_github_branch "openshift/api:release-4.14:extra" =
    .ok ⟨"https://github.com/openshift/api", "openshift", "api", "release-4.14:extra"⟩ := rfl

example : parse_github_branch "a/b:c:d\n" = .ok ⟨"https://github.com/a/b", "a", "b", "c:d"⟩ := rfl

example : parse_github_branch "a:b/c:d" = .error "Only GitHub URLs are supported right now" := rfl

example : parse_github_branch "https://github.com/a:b/c:d" =
    .ok ⟨"https://github.com/a:b/c", "a:b", "c", "d"⟩ := rfl

/-! ### Model of `GithubAppProvider`

The provider's mutable state is a record; the `cached_property` accessors
become state-transition functions that also report how many installation
access tokens were minted (calls to `GithubIntegration.get_access_token`),
so that the caching contract is statable.  The external PyGithub API is an
environment of pure functions: `repo_installation ns name` is
`GithubIntegration.get_repo_installation` (with `none` standing for
`UnknownObjectException`) and `access_token` is
`GithubIntegration.get_access_token(...).token`. -/

/-- Dataclass `GitHubAppCredentials`: numeric app id, private key bytes and
the `GitHubBranch` of the repository where the app is installed. -/
structure GitHubAppCredentials where
  app_id : Int
  app_key : List Nat
  github_branch : GitHubBranch
deriving DecidableEq, Repr

/-- A PyGithub `Github` client handle, identified by the bearer token its
`Auth.Token` authenticator wraps (`none` when built from an absent user
token). -/
structure Github where
  auth_token : Option String
deriving DecidableEq, Repr

/-- The fields of a `GithubAppProvider` instance.  The Python attributes
`_app_credentials`, `_cloner_app_credentials`, `_app_token` and
`_cloner_token` lose their leading underscore; `github_app_cache` and
`github_cloner_app_cache` are the storage slots that `functools`'
`cached_property` keeps for `github_app` and `github_cloner_app`. -/
structure GithubAppProvider where
  user_auth : Bool
  user_token : Option String
  app_credentials : Option GitHubAppCredentials
  cloner_app_credentials : Option GitHubAppCredentials
  app_token : Option String
  cloner_token : Option String
  github_app_cache : Option Github
  github_cloner_app_cache : Option Github
deriving DecidableEq, Repr

/-- `GithubAppProvider.__init__`.  When `user_auth` is false the source
checks `all((app_id, app_key, dest_branch, cloner_id, cloner_key,
rebase_branch))` and raises `ValueError` when it fails; under Python
truthiness that means: every argument is non-`None`, the ids are nonzero
and the key byte strings nonempty (a dataclass instance is always truthy).
When `user_auth` is true no validation happens at all. -/
def GithubAppProvider.init
    (app_id : Option Int) (app_key : Option (List Nat)) (dest_branch : Option GitHubBranch)
    (cloner_id : Option Int) (cloner_key : Option (List Nat))
    (rebase_branch : Option GitHubBranch)
    (user_auth : Bool) (user_token : Option String) :
    Except String GithubAppProvider :=
  if user_auth then
    .ok ⟨user_auth, user_token, none, none, none, none, none, none⟩
  else
    match app_id, app_key, dest_branch, cloner_id, cloner_key, rebase_branch with
    | some ai, some ak, some db, some ci, some ck, some rb =>
      if ai = 0 ∨ ak = [] ∨ ci = 0 ∨ ck = [] then
        .error "Credentials for both, cloning and pushing app should be provided"
      else
        .ok ⟨user_auth, user_token, some ⟨ai, ak, db⟩, some ⟨ci, ck, rb⟩,
             none, none, none, none⟩
    | _, _, _, _, _, _ =>
      .error "Credentials for both, cloning and pushing app should be provided"

/-- `get_app_token`: the user token in user mode, else `_app_token`. -/
def GithubAppProvider.get_app_token (s : GithubAppProvider) : Option String :=
  if s.user_auth then s.user_token else s.app_token

/-- `get_cloner_token`: the user token in user mode, else `_cloner_token`. -/
def GithubAppProvider.get_cloner_token (s : GithubAppProvider) : Option String :=
  if s.user_auth then s.user_token else s.cloner_token

/-- The external `GithubIntegration` API used by `_github_login_app`. -/
structure GithubIntegrationEnv where
  repo_installation : String → String → Option Int
  access_token : Int → String

/-- `_github_login_app(credentials)`: look the installation up by the
credentials' branch namespace and repository name; on
`UnknownObjectException` raise the descriptive exception; otherwise mint an
installation access token and return the token-authenticated `Github`
handle together with the token. -/
def github_login_app (env : GithubIntegrationEnv) (credentials : GitHubAppCredentials) :
    Except String (Github × String) :=
  match env.repo_installation credentials.github_branch.ns credentials.github_branch.name with
  | none =>
    .error ("App has not been authorized by " ++ credentials.github_branch.ns ++
      ", or repo " ++ credentials.github_branch.ns ++ "/" ++
      credentials.github_branch.name ++ " does not exist")
  | some installation_id =>
    let tok := env.access_token installation_id
    .ok (⟨some tok⟩, tok)

/-- The `cached_property` accessor `github_app` as a state transition.
Returns the produced handle (or the propagated exception), the provider
state after the access, and the number of installation access tokens minted
by the access.  A populated cache slot is returned as is; on a cache miss
the body runs: user mode builds a handle from the user token, app mode runs
`_github_login_app` on `_app_credentials`, stores the token in `_app_token`
and the handle in the cache.  `cached_property` does not store anything
when the body raises.  (`_app_credentials = none` cannot occur with
`user_auth` false for a constructed provider; the Python body would fault
on attribute access, modelled as an error.) -/
def GithubAppProvider.github_app (env : GithubIntegrationEnv) (s : GithubAppProvider) :
    Except String Github × GithubAppProvider × Nat :=
  match s.github_app_cache with
  | some g => (.ok g, s, 0)
  | none =>
    if s.user_auth then
      let g : Github := ⟨s.user_token⟩
      (.ok g, { s with github_app_cache := some g }, 0)
    else
      match s.app_credentials with
      | none => (.error "AttributeError", s, 0)
      | some c =>
        match github_login_app env c with
        | .error e => (.error e, s, 0)
        | .ok (g, tok) =>
          (.ok g, { s with app_token := some tok, github_app_cache := some g }, 1)

/-- The `cached_property` accessor `github_cloner_app`, symmetric to
`github_app` with the cloner credentials, token and cache slot. -/
def GithubAppProvider.github_cloner_app (env : GithubIntegrationEnv) (s : GithubAppProvider) :
    Except String Github × GithubAppProvider × Nat :=
  match s.github_cloner_app_cache with
  | some g => (.ok g, s, 0)
  | none =>
    if s.user_auth then
      let g : Github := ⟨s.user_token⟩
      (.ok g, { s with github_cloner_app_cache := some g }, 0)
    else
      match s.cloner_app_credentials with
      | none => (.error "AttributeError", s, 0)
      | some c =>
        match github_login_app env c with
        | .error e => (.error e, s, 0)
        | .ok (g, tok) =>
          (.ok g, { s with cloner_token := some tok, github_cloner_app_cache := some g }, 1)

/-! ### Helper lemmas for the parser -/

/-- `takeWhile` walks through an appended block all of whose elements
satisfy the predicate. -/
theorem takeWhile_append_all {α : Type} {p : α → Bool} {as : List α} (bs : List α)
    (h : ∀ a ∈ as, p a = true) :
    (as ++ bs).takeWhile p = as ++ bs.takeWhile p := by
  have h1 : as.takeWhile p = as := List.takeWhile_eq_self_iff.2 h
  rw [List.takeWhile_append, h1, if_pos rfl]

/-- `dropWhile` discards an appended block all of whose elements satisfy
the predicate. -/
theorem dropWhile_append_all {α : Type} {p : α → Bool} {as : List α} (bs : List α)
    (h : ∀ a ∈ as, p a = true) :
    (as ++ bs).dropWhile p = bs.dropWhile p := by
  have h1 : as.dropWhile p = [] := List.dropWhile_eq_nil_iff.2 h
  rw [List.dropWhile_append, h1]
  simp

/-- Turn non-membership of a character into the pointwise `!=` facts the
`takeWhile`/`dropWhile` lemmas consume. -/
theorem all_bne_of_not_mem {c : Char} {l : List Char} (h : c ∉ l) :
    ∀ a ∈ l, (a != c) = true :=
  fun _ ha => bne_iff_ne.2 (fun e => h (e ▸ ha))

/-- On input `o ++ "/" ++ t` with a colon-free owner part, `urlsplit` finds
no scheme: the text before the first colon contains the `'/'`, which is not
a scheme character. -/
theorem schemeSplit_bare {o : List Char} (t : List Char) (ho3 : ':' ∉ o) :
    schemeSplit (o ++ '/' :: t) = ([], o ++ '/' :: t) := by
  have hall : ∀ a ∈ o, (a != ':') = true := all_bne_of_not_mem ho3
  have hpre : (o ++ '/' :: t).takeWhile (fun c => c != ':') =
      o ++ '/' :: t.takeWhile (fun c => c != ':') := by
    rw [takeWhile_append_all _ hall, List.takeWhile_cons_of_pos (by decide)]
  simp only [schemeSplit]
  split
  · rfl
  · rw [if_neg]
    rintro ⟨-, -, hallsch⟩
    have hmem : '/' ∈ (o ++ '/' :: t).takeWhile (fun c => c != ':') := by
      rw [hpre]
      exact List.mem_append_right _ (List.mem_cons_self _ _)
    have h2 := List.all_eq_true.1 hallsch '/' hmem
    simp [isSchemeChar] at h2

/-- A list that does not start with `"//"` yields an empty netloc. -/
theorem netlocOf_bare {o : List Char} (t : List Char) (ho : o ≠ []) (ho2 : '/' ∉ o) :
    netlocOf (o ++ '/' :: t) = .ok [] := by
  unfold netlocOf
  rw [if_neg]
  cases o with
  | nil => exact absurd rfl ho
  | cons c cs =>
    have hc : c ≠ '/' := fun e => ho2 (e ▸ List.mem_cons_self c cs)
    simp [List.take_succ_cons, hc]

/-- `urlparse` on a colon-free-owner bare locator: no scheme, no netloc. -/
theorem urlparse_bare {o : List Char} (t : List Char)
    (ho : o ≠ []) (ho2 : '/' ∉ o) (ho3 : ':' ∉ o) :
    urlparse (o ++ '/' :: t) = .ok ⟨[], []⟩ := by
  simp only [urlparse, schemeSplit_bare t ho3, netlocOf_bare t ho ho2, Except.map]

/-- `ghHead` split at its own colon, for `takeWhile` computations. -/
theorem ghHead_eq : ghHead = "https".data ++ ':' :: "//github.com/".data := rfl

/-- The `https://github.com/` prefix is not removed from a bare locator
whose owner part is colon-free: such an input cannot start with
`"https:"`. -/
theorem stripGhHead_bare {o : List Char} (t : List Char) (ho3 : ':' ∉ o) :
    stripGhHead (o ++ '/' :: t) = o ++ '/' :: t := by
  have hall : ∀ a ∈ o, (a != ':') = true := all_bne_of_not_mem ho3
  unfold stripGhHead
  rw [if_neg]
  intro h
  have hx : o ++ '/' :: t = ghHead ++ (o ++ '/' :: t).drop ghHead.length := by
    conv_lhs => rw [← List.take_append_drop ghHead.length (o ++ '/' :: t)]
    rw [h]
  have h1 : (o ++ '/' :: t).takeWhile (fun c => c != ':') =
      o ++ '/' :: t.takeWhile (fun c => c != ':') := by
    rw [takeWhile_append_all _ hall, List.takeWhile_cons_of_pos (by decide)]
  have h2 : (o ++ '/' :: t).takeWhile (fun c => c != ':') = "https".data := by
    rw [hx, ghHead_eq, List.append_assoc,
      takeWhile_append_all _ (by decide : ∀ a ∈ "https".data, (a != ':') = true)]
    simp [List.takeWhile_cons]
  rw [h1] at h2
  have : '/' ∈ "https".data := by
    rw [← h2]
    exact List.mem_append_right _ (List.mem_cons_self _ _)
  simp at this

/-- The regex on a well-shaped `owner/repo:branch` template: the owner must
be nonempty and slash-free, the repo nonempty and colon-free, and the
branch part newline-free; the match then splits exactly at the template
separators. -/
theorem regexMatch_template {o r rest : List Char}
    (ho : o ≠ []) (ho2 : '/' ∉ o) (hr : r ≠ []) (hr2 : ':' ∉ r) (hb : '\n' ∉ rest) :
    githubRegexMatch (o ++ '/' :: (r ++ ':' :: rest)) = some (o, r, rest) := by
  have horg : (o ++ '/' :: (r ++ ':' :: rest)).takeWhile (fun c => c != '/') = o := by
    rw [takeWhile_append_all _ (all_bne_of_not_mem ho2),
      List.takeWhile_cons_of_neg (by decide), List.append_nil]
  have hdrop : (o ++ '/' :: (r ++ ':' :: rest)).drop o.length = '/' :: (r ++ ':' :: rest) :=
    List.drop_left o _
  have hdrop1 : (o ++ '/' :: (r ++ ':' :: rest)).drop (o.length + 1) = r ++ ':' :: rest := by
    rw [show o ++ '/' :: (r ++ ':' :: rest) = (o ++ ['/']) ++ (r ++ ':' :: rest) by simp]
    exact List.drop_left' (by simp)
  have hnm : (r ++ ':' :: rest).takeWhile (fun c => c != ':') = r := by
    rw [takeWhile_append_all _ (all_bne_of_not_mem hr2),
      List.takeWhile_cons_of_neg (by decide), List.append_nil]
  have hdrop2 : (r ++ ':' :: rest).drop r.length = ':' :: rest := List.drop_left r _
  have hdrop3 : (r ++ ':' :: rest).drop (r.length + 1) = rest := by
    rw [show r ++ ':' :: rest = (r ++ [':']) ++ rest by simp]
    exact List.drop_left' (by simp)
  have hbr : branchTail rest = some rest := by
    simp only [branchTail]
    rw [List.takeWhile_eq_self_iff.2 (all_bne_of_not_mem hb)]
    simp
  simp only [githubRegexMatch, horg, hdrop, hdrop1, hnm, hdrop2, hdrop3, hbr]
  simp [ho, hr]

/-- The tail of `parse_github_branch` after the host check and prefix
strip: regex match and `GitHubBranch` construction (proof-side
abbreviation of the final two branches of the source function). -/
def regexResult (l : List Char) : Except String GitHubBranch :=
  match githubRegexMatch l with
  | none =>
    .error "GitHub branch value must be in the form <user or organization>/<repo>:<branch>"
  | some (org, nm, br) =>
    .ok ⟨("https://github.com/".data ++ org ++ '/' :: nm).asString,
         org.asString, nm.asString, br.asString⟩

/-- Parsing a string that starts with the literal `https://github.com/`:
the scheme is `https`, the netloc is `github.com`, the host check passes,
the prefix is stripped, and only the regex remains. -/
theorem parse_gh (l : List Char) : parse_github_branch ⟨ghHead ++ l⟩ = regexResult l := rfl

/-- Parsing a string with no scheme, no netloc and no
`https://github.com/` prefix: only the regex remains. -/
theorem parse_clean (s : String) (h1 : urlparse s.data = .ok ⟨[], []⟩)
    (h2 : stripGhHead s.data = s.data) :
    parse_github_branch s = regexResult s.data := by
  unfold parse_github_branch regexResult
  rw [h1, h2]
  rfl

/-- `List.asString` only repackages the character list. -/
theorem data_asString (l : List Char) : (List.asString l).data = l := rfl

/-- A string with a nonempty character list is not the empty string. -/
theorem data_ne_nil {s : String} (h : s ≠ "") : s.data ≠ [] :=
  fun e => h (String.ext e)

/-- Template concatenation `o ++ "/" ++ r ++ ":" ++ b` as a character
list. -/
theorem mk_data_template (o r b : String) :
    o ++ "/" ++ r ++ ":" ++ b = String.mk (o.data ++ '/' :: (r.data ++ ':' :: b.data)) := by
  apply String.ext
  simp only [String.data_append, List.append_assoc]
  rfl

/-- Template concatenation with the `https://github.com/` prefix as a
character list. -/
theorem mk_data_url_template (o r b : String) :
    "https://github.com/" ++ o ++ "/" ++ r ++ ":" ++ b =
      String.mk (ghHead ++ (o.data ++ '/' :: (r.data ++ ':' :: b.data))) := by
  apply String.ext
  simp only [String.data_append, List.append_assoc]
  rfl

/-- Inversion of a successful regex match: the organization group is
exactly the run before the first `'/'`, and the organization and name
groups are nonempty. -/
theorem regexMatch_inv {l o n b : List Char} (h : githubRegexMatch l = some (o, n, b)) :
    o = l.takeWhile (fun c => c != '/') ∧ o ≠ [] ∧ n ≠ [] := by
  simp only [githubRegexMatch] at h
  split at h
  · exact absurd h (by simp)
  · rename_i hcond1
    split at h
    · exact absurd h (by simp)
    · rename_i hcond2
      rw [Option.map_eq_some'] at h
      obtain ⟨bb, hbb, heq⟩ := h
      cases heq
      exact ⟨rfl, (not_or.1 hcond1).1, (not_or.1 hcond2).1⟩

/-- Inversion of a successful parse: the result is built from a successful
regex match on the prefix-stripped input. -/
theorem parse_ok_inv {s : String} {gb : GitHubBranch}
    (h : parse_github_branch s = .ok gb) :
    ∃ o n b, githubRegexMatch (stripGhHead s.data) = some (o, n, b) ∧
      gb = ⟨("https://github.com/".data ++ o ++ '/' :: n).asString,
            o.asString, n.asString, b.asString⟩ := by
  unfold parse_github_branch at h
  split at h
  · exact absurd h (by simp)
  · split at h
    · exact absurd h (by simp)
    · split at h
      · exact absurd h (by simp)
      · rename_i org nm br heq
        refine ⟨org, nm, br, heq, ?_⟩
        injection h with h
        exact h.symm

/-! ### Claims about the parser -/

/-- C2 counterexample: `parse_github_branch "gitlab.com/openshift/api:main"`
does not fail with the unsupported-host error; the input has no scheme, so
the host check is skipped and it parses as owner `gitlab.com`, repo
`openshift/api`, branch `main`. -/
theorem C2_counterexample :
    ∃ gb : GitHubBranch, parse_github_branch "gitlab.com/openshift/api:main" = .ok gb ∧
      gb.ns = "gitlab.com" :=
  ⟨⟨"https://github.com/gitlab.com/openshift/api", "gitlab.com", "openshift/api", "main"⟩,
    rfl, rfl⟩

/-- C2 (amended): an input is rejected with the unsupported-host error
exactly in the source's guard: when `urlparse` finds a nonempty scheme and
the netloc is not `github.com`.  Scheme-less inputs reach pattern matching
regardless of their apparent host. -/
theorem C2_host_check_only_with_scheme (s : String) (u : UrlParts)
    (h : urlparse s.data = .ok u) (h1 : u.scheme ≠ []) (h2 : u.netloc ≠ "github.com".data) :
    parse_github_branch s = .error "Only GitHub URLs are supported right now" := by
  unfold parse_github_branch
  rw [h]
  exact if_pos ⟨h1, h2⟩

/-- C2 witness: `https://gitlab.com/openshift/api:main` has scheme `https`
and netloc `gitlab.com`, so it is rejected. -/
theorem C2_witness :
    parse_github_branch "https://gitlab.com/openshift/api:main" =
      .error "Only GitHub URLs are supported right now" :=
  C2_host_check_only_with_scheme "https://gitlab.com/openshift/api:main"
    ⟨"https".data, "gitlab.com".data⟩ rfl (by decide) (by decide)

/-- C4 counterexample: the branch group of the regex is `.*`, so
`"a/b:"` parses successfully with an empty branch name. -/
theorem C4_counterexample :
    ∃ gb : GitHubBranch, parse_github_branch "a/b:" = .ok gb ∧ gb.branch = "" :=
  ⟨⟨"https://github.com/a/b", "a", "b", ""⟩, rfl, rfl⟩

/-- C4 (amended): every successfully parsed `GitHubBranch` has nonempty
url, owner and repository name; the branch may be empty. -/
theorem C4_nonempty_fields (s : String) (gb : GitHubBranch)
    (h : parse_github_branch s = .ok gb) :
    gb.url ≠ "" ∧ gb.ns ≠ "" ∧ gb.name ≠ "" := by
  obtain ⟨o, n, b, hm, rfl⟩ := parse_ok_inv h
  obtain ⟨-, ho, hn⟩ := regexMatch_inv hm
  refine ⟨?_, ?_, ?_⟩
  · intro e
    have h2 : "https://github.com/".data ++ o ++ '/' :: n = [] := congrArg String.data e
    simp at h2
  · exact fun e => ho (congrArg String.data e)
  · exact fun e => hn (congrArg String.data e)

/-- C4 witness: the fields parsed from `"a/b:c"` are nonempty. -/
theorem C4_witness :
    ("https://github.com/a/b" : String) ≠ "" ∧ ("a" : String) ≠ "" ∧ ("b" : String) ≠ "" :=
  C4_nonempty_fields "a/b:c" ⟨"https://github.com/a/b", "a", "b", "c"⟩ rfl

/-- C7 counterexample: for `"a/b:c:d\n"` the remainder after the first
colon after the repo segment is `"c:d\n"`, but the parsed branch is
`"c:d"`: the `$` anchor of `re.match` drops a single trailing newline, so
the branch field is not always the entire remainder. -/
theorem C7_counterexample :
    parse_github_branch "a/b:c:d\n" = .ok ⟨"https://github.com/a/b", "a", "b", "c:d"⟩ ∧
    ("c:d" : String) ≠ "c:d\n" :=
  ⟨rfl, by decide⟩

/-- C7 (amended): for a locator `o/r:rest` with nonempty slash-free and
colon-free owner and nonempty colon-free repo, and a remainder `rest`
containing no newline, the parse splits at the first colon after the repo
segment and the branch is the entire remainder, colons included.  (A lone
trailing newline in the remainder is dropped by the `$` anchor, and any
other newline makes the match fail.) -/
theorem C7_branch_after_first_colon (o r rest : String)
    (ho : o ≠ "") (ho2 : '/' ∉ o.data) (ho3 : ':' ∉ o.data)
    (hr : r ≠ "") (hr2 : ':' ∉ r.data) (hrest : '\n' ∉ rest.data) :
    parse_github_branch (o ++ "/" ++ r ++ ":" ++ rest) =
      .ok ⟨"https://github.com/" ++ o ++ "/" ++ r, o, r, rest⟩ := by
  rw [mk_data_template,
    parse_clean _ (urlparse_bare _ (data_ne_nil ho) ho2 ho3) (stripGhHead_bare _ ho3)]
  unfold regexResult
  rw [regexMatch_template (data_ne_nil ho) ho2 (data_ne_nil hr) hr2 hrest]
  refine congrArg Except.ok ?_
  have hurl : ("https://github.com/".data ++ o.data ++ '/' :: r.data).asString =
      "https://github.com/" ++ o ++ "/" ++ r := by
    apply String.ext
    simp only [data_asString, String.data_append, List.append_assoc]
    rfl
  rw [hurl]
  rfl

/-- C7 witness: the branch of `"openshift/api:release-4.14:extra"` is the
whole remainder `release-4.14:extra` after the first colon. -/
theorem C7_witness :
    parse_github_branch ("openshift" ++ "/" ++ "api" ++ ":" ++ "release-4.14:extra") =
      .ok ⟨"https://github.com/" ++ "openshift" ++ "/" ++ "api", "openshift", "api",
           "release-4.14:extra"⟩ :=
  C7_branch_after_first_colon "openshift" "api" "release-4.14:extra"
    (by decide) (by decide) (by decide) (by decide) (by decide) (by decide)

/-- C8 counterexample: with owner `a:b`, repo `c`, branch `d`, the full-URL
form parses but the bare form is mistaken for a URL with scheme `a` and an
empty netloc and rejected, so the two forms do not agree for every owner,
repo and branch. -/
theorem C8_counterexample :
    parse_github_branch "https://github.com/a:b/c:d" =
      .ok ⟨"https://github.com/a:b/c", "a:b", "c", "d"⟩ ∧
    parse_github_branch "a:b/c:d" = .error "Only GitHub URLs are supported right now" ∧
    parse_github_branch "https://github.com/a:b/c:d" ≠ parse_github_branch "a:b/c:d" :=
  ⟨rfl, rfl, fun h => Except.noConfusion h⟩

/-- C8 (amended): the full-URL form and the bare form parse identically
whenever the owner segment is nonempty and free of `'/'` and `':'` (a
colon inside the owner can make the bare form look like a URL scheme). -/
theorem C8_url_and_bare_agree (o r b : String)
    (ho : o ≠ "") (ho2 : '/' ∉ o.data) (ho3 : ':' ∉ o.data) :
    parse_github_branch ("https://github.com/" ++ o ++ "/" ++ r ++ ":" ++ b) =
      parse_github_branch (o ++ "/" ++ r ++ ":" ++ b) := by
  rw [mk_data_url_template, mk_data_template, parse_gh,
    parse_clean _ (urlparse_bare _ (data_ne_nil ho) ho2 ho3) (stripGhHead_bare _ ho3)]

/-- C8 witness: the two spec examples agree. -/
theorem C8_witness :
    parse_github_branch ("https://github.com/" ++ "openshift" ++ "/" ++ "api" ++ ":" ++ "main") =
      parse_github_branch ("openshift" ++ "/" ++ "api" ++ ":" ++ "main") :=
  C8_url_and_bare_agree "openshift" "api" "main" (by decide) (by decide) (by decide)

/-- C10: for every successful parse, the owner is exactly the characters of
the prefix-stripped input before its first `'/'`; and the repo segment may
itself contain slashes: `"a/b/c:main"` parses with owner `a` and repo
`b/c`. -/
theorem C10_owner_first_segment :
    (∀ (s : String) (gb : GitHubBranch), parse_github_branch s = .ok gb →
      gb.ns.data = (stripGhHead s.data).takeWhile (fun c => c != '/')) ∧
    parse_github_branch "a/b/c:main" =
      .ok ⟨"https://github.com/a/b/c", "a", "b/c", "main"⟩ := by
  constructor
  · intro s gb h
    obtain ⟨o, n, b, hm, rfl⟩ := parse_ok_inv h
    exact (regexMatch_inv hm).1
  · rfl

/-- C10 witness: the owner parsed from `"a/b/c:main"` is the segment before
the first slash. -/
theorem C10_witness :
    (GitHubBranch.mk "https://github.com/a/b/c" "a" "b/c" "main").ns.data =
      (stripGhHead "a/b/c:main".data).takeWhile (fun c => c != '/') :=
  C10_owner_first_segment.1 "a/b/c:main"
    ⟨"https://github.com/a/b/c", "a", "b/c", "main"⟩ rfl

/-! ### Claims about the provider -/

/-- A successful `_github_login_app` returns the handle authenticated with
exactly the minted token. -/
theorem login_ok_inv {env : GithubIntegrationEnv} {c : GitHubAppCredentials}
    {g : Github} {tok : String} (h : github_login_app env c = .ok (g, tok)) :
    g = ⟨some tok⟩ := by
  unfold github_login_app at h
  split at h
  · exact absurd h (by simp)
  · injection h with h
    cases h
    rfl

/-- C1: for a provider constructed in app mode, a successful first
`github_app` access mints at most one installation token, stores the
handle in the cache slot and the handle's token in `_app_token`, and a
second access returns the same handle with unchanged state and no further
token exchange. -/
theorem C1_github_app_single_exchange
    (env : GithubIntegrationEnv) (ai : Int) (ak : List Nat) (db : GitHubBranch)
    (ci : Int) (ck : List Nat) (rb : GitHubBranch) (ut : Option String)
    (s s1 : GithubAppProvider) (g : Github) (n : Nat)
    (hinit : GithubAppProvider.init (some ai) (some ak) (some db) (some ci) (some ck)
      (some rb) false ut = .ok s)
    (hcall : GithubAppProvider.github_app env s = (.ok g, s1, n)) :
    n ≤ 1 ∧ s1.github_app_cache = some g ∧ s1.app_token = g.auth_token ∧
      GithubAppProvider.github_app env s1 = (.ok g, s1, 0) := by
  simp only [GithubAppProvider.init, Bool.false_eq_true, if_false] at hinit
  split at hinit
  · exact absurd hinit (by simp)
  · injection hinit with hinit
    subst hinit
    cases hlog : github_login_app env ⟨ai, ak, db⟩ with
    | error e =>
      simp only [GithubAppProvider.github_app, hlog] at hcall
      simp at hcall
    | ok p =>
      obtain ⟨g0, tok⟩ := p
      have hg0 : g0 = ⟨some tok⟩ := login_ok_inv hlog
      subst hg0
      simp only [GithubAppProvider.github_app, hlog, Bool.false_eq_true, if_false,
        Prod.mk.injEq, Except.ok.injEq] at hcall
      obtain ⟨hg, hs, hn⟩ := hcall
      subst hg
      subst hs
      subst hn
      exact ⟨by decide, rfl, rfl, rfl⟩

/-- C5: in app mode, when the installation lookup reports not-found, the
`github_app` access fails with the descriptive error naming the configured
owner and repository, mints no token, and leaves the provider state
unchanged with the primary token slot still unset. -/
theorem C5_app_not_installed
    (env : GithubIntegrationEnv) (ai : Int) (ak : List Nat) (db : GitHubBranch)
    (ci : Int) (ck : List Nat) (rb : GitHubBranch) (ut : Option String)
    (s : GithubAppProvider)
    (hinit : GithubAppProvider.init (some ai) (some ak) (some db) (some ci) (some ck)
      (some rb) false ut = .ok s)
    (henv : env.repo_installation db.ns db.name = none) :
    GithubAppProvider.github_app env s =
      (.error ("App has not been authorized by " ++ db.ns ++ ", or repo " ++ db.ns ++ "/" ++
        db.name ++ " does not exist"), s, 0) ∧ s.app_token = none := by
  simp only [GithubAppProvider.init, Bool.false_eq_true, if_false] at hinit
  split at hinit
  · exact absurd hinit (by simp)
  · injection hinit with hinit
    subst hinit
    have hlog : github_login_app env ⟨ai, ak, db⟩ =
        .error ("App has not been authorized by " ++ db.ns ++ ", or repo " ++ db.ns ++ "/" ++
          db.name ++ " does not exist") := by
      simp only [github_login_app, henv]
    exact ⟨by simp only [GithubAppProvider.github_app, hlog, Bool.false_eq_true, if_false], rfl⟩

/-- C6: app-mode construction fails with the incomplete-credentials error
whenever any one of the six credential fields is `None`, and succeeds when
all six are supplied and truthy. -/
theorem C6_init_validation :
    (∀ (a : Option Int) (k : Option (List Nat)) (db : Option GitHubBranch)
       (ci : Option Int) (ck : Option (List Nat)) (rb : Option GitHubBranch)
       (ut : Option String),
       (a = none ∨ k = none ∨ db = none ∨ ci = none ∨ ck = none ∨ rb = none) →
       GithubAppProvider.init a k db ci ck rb false ut =
         .error "Credentials for both, cloning and pushing app should be provided") ∧
    (∀ (ai : Int) (ak : List Nat) (db : GitHubBranch) (ci : Int) (ck : List Nat)
       (rb : GitHubBranch) (ut : Option String),
       ai ≠ 0 → ak ≠ [] → ci ≠ 0 → ck ≠ [] →
       (GithubAppProvider.init (some ai) (some ak) (some db) (some ci) (some ck) (some rb)
         false ut).isOk = true) := by
  constructor
  · intro a k db ci ck rb ut h
    cases a <;> cases k <;> cases db <;> cases ci <;> cases ck <;> cases rb <;>
      simp_all [GithubAppProvider.init]
  · intro ai ak db ci ck rb ut h1 h2 h3 h4
    simp [GithubAppProvider.init, h1, h2, h3, h4, Except.isOk, Except.toBool]

/-- C6 witness: five of six fields (missing primary app id) fail; all six
valid fields succeed. -/
theorem C6_witness :
    GithubAppProvider.init none (some [1]) (some ⟨"https://github.com/a/b", "a", "b", "m"⟩)
      (some 1) (some [1]) (some ⟨"https://github.com/c/d", "c", "d", "m"⟩) false none =
      .error "Credentials for both, cloning and pushing app should be provided" ∧
    (GithubAppProvider.init (some 1) (some [1])
      (some ⟨"https://github.com/a/b", "a", "b", "m"⟩) (some 2) (some [2])
      (some ⟨"https://github.com/c/d", "c", "d", "m"⟩) false none).isOk = true :=
  ⟨C6_init_validation.1 none (some [1]) (some ⟨"https://github.com/a/b", "a", "b", "m"⟩)
      (some 1) (some [1]) (some ⟨"https://github.com/c/d", "c", "d", "m"⟩) none (Or.inl rfl),
   C6_init_validation.2 1 [1] ⟨"https://github.com/a/b", "a", "b", "m"⟩ 2 [2]
      ⟨"https://github.com/c/d", "c", "d", "m"⟩ none (by decide) (by decide) (by decide)
      (by decide)⟩

/-- C9: a supplied but falsy credential is treated as missing by the
`all(...)` truthiness check: `app_id = 0` and `app_key = b""` each fail
construction even with all six fields explicitly provided. -/
theorem C9_falsy_credentials_rejected :
    GithubAppProvider.init (some 0) (some [1]) (some ⟨"https://github.com/a/b", "a", "b", "m"⟩)
      (some 1) (some [1]) (some ⟨"https://github.com/c/d", "c", "d", "m"⟩) false none =
      .error "Credentials for both, cloning and pushing app should be provided" ∧
    GithubAppProvider.init (some 1) (some []) (some ⟨"https://github.com/a/b", "a", "b", "m"⟩)
      (some 1) (some [1]) (some ⟨"https://github.com/c/d", "c", "d", "m"⟩) false none =
      .error "Credentials for both, cloning and pushing app should be provided" :=
  ⟨rfl, rfl⟩

/-- C3 counterexample: constructing in user-token mode with no user token
succeeds — no construction-time validation happens in the `user_auth`
branch, so a provider with an unset user token does exist. -/
theorem C3_counterexample :
    ∃ s : GithubAppProvider,
      GithubAppProvider.init none none none none none none true none = .ok s ∧
      s.user_token = none :=
  ⟨⟨true, none, none, none, none, none, none, none⟩, rfl, rfl⟩

/-- C3 (amended): user-token-mode construction performs no validation of
`user_token`: it succeeds for any value including `None`, and the token
accessors then return exactly that (possibly unset) value. -/
theorem C3_no_user_token_validation (ut : Option String) :
    GithubAppProvider.init none none none none none none true ut =
      .ok ⟨true, ut, none, none, none, none, none, none⟩ ∧
    GithubAppProvider.get_app_token ⟨true, ut, none, none, none, none, none, none⟩ = ut ∧
    GithubAppProvider.get_cloner_token ⟨true, ut, none, none, none, none, none, none⟩ = ut :=
  ⟨rfl, rfl, rfl⟩

/-- C3 witness: user-token-mode construction with a concrete token. -/
theorem C3_witness :
    GithubAppProvider.init none none none none none none true (some "tok") =
      .ok ⟨true, some "tok", none, none, none, none, none, none⟩ ∧
    GithubAppProvider.get_app_token
      ⟨true, some "tok", none, none, none, none, none, none⟩ = some "tok" ∧
    GithubAppProvider.get_cloner_token
      ⟨true, some "tok", none, none, none, none, none, none⟩ = some "tok" :=
  C3_no_user_token_validation (some "tok")

/-- Concrete environment for the cache-contract witness: every lookup finds
installation `7`, every mint returns `"tok"`. -/
def envW : GithubIntegrationEnv := ⟨fun _ _ => some 7, fun _ => "tok"⟩

/-- Concrete environment in which no installation is found. -/
def envW0 : GithubIntegrationEnv := ⟨fun _ _ => none, fun _ => "tok"⟩

/-- Concrete destination branch for provider witnesses. -/
def brW : GitHubBranch := ⟨"https://github.com/a/b", "a", "b", "main"⟩

/-- Concrete rebase branch for provider witnesses. -/
def brW2 : GitHubBranch := ⟨"https://github.com/c/d", "c", "d", "main"⟩

/-- The provider constructed from the concrete witness credentials. -/
def sW : GithubAppProvider :=
  ⟨false, none, some ⟨1, [1], brW⟩, some ⟨2, [2], brW2⟩, none, none, none, none⟩

/-- The witness provider state after the first successful `github_app`. -/
def sW1 : GithubAppProvider :=
  ⟨false, none, some ⟨1, [1], brW⟩, some ⟨2, [2], brW2⟩, some "tok", none,
   some ⟨some "tok"⟩, none⟩

/-- The handle produced by the witness exchange. -/
def gW : Github := ⟨some "tok"⟩

/-- C1 witness: a concrete app-mode provider mints one token on the first
access and none on the second. -/
theorem C1_witness :
    (1 : Nat) ≤ 1 ∧ sW1.github_app_cache = some gW ∧ sW1.app_token = gW.auth_token ∧
      GithubAppProvider.github_app envW sW1 = (.ok gW, sW1, 0) :=
  C1_github_app_single_exchange envW 1 [1] brW 2 [2] brW2 none sW sW1 gW 1 rfl rfl

/-- C5 witness: with a not-found installation lookup the concrete provider
reports the descriptive error, keeps its state, and caches no token. -/
theorem C5_witness :
    GithubAppProvider.github_app envW0 sW =
      (.error ("App has not been authorized by " ++ brW.ns ++ ", or repo " ++ brW.ns ++ "/" ++
        brW.name ++ " does not exist"), sW, 0) ∧ sW.app_token = none :=
  C5_app_not_installed envW0 1 [1] brW 2 [2] brW2 none sW rfl rfl

end Rebasebot
